import Mathlib

/-!
Verification of the noise-pollution dashboard (`src/app.py`) against its
design specification.  The relevant logic of the source — the slider-driven
period resolution, the data load/join, the aggregation and the violation
classification — is embedded shallowly below; floating-point values are
modelled as rationals, with an explicit `nan` constructor where the source's
arithmetic can produce NaN (mean of an empty series, 0/0).
-/

namespace NoiseDash

/-- Python `range(lo, hi)` — the half-open integer interval `[lo, hi)`,
used as the `options` argument of every `st.select_slider` call. -/
def pyrange (lo hi : Nat) : List Nat := List.range' lo (hi - lo)

/-- The ways a Streamlit `select_slider` call can fail:
`emptyOptions` — the `options` iterable is empty (Streamlit raises
`StreamlitAPIException` in that case); `valueNotInOptions` — the supplied
value is not among the options (also rejected by Streamlit rather than
clamped).  The spec's design-level name for this rejection is
`InvalidPeriodBounds`. -/
inductive SliderError
  | emptyOptions
  | valueNotInOptions
deriving DecidableEq

/-- `st.select_slider(options=..., value=...)`: the widget rejects an empty
options list outright and only ever yields a value that is a member of
`options`; a value outside the options is an error, never repaired. -/
def select_slider (options : List Nat) (value : Nat) : Except SliderError Nat :=
  if options = [] then .error .emptyOptions
  else if value ∈ options then .ok value
  else .error .valueNotInOptions

/-- The three month ranges produced by the sidebar of `app.py`
(lines 131–133): `before_months = range(before_start, before_end + 1)`,
the selected month, `after_months = range(after_start, after_end + 1)`. -/
structure Periods where
  before_months : List Nat
  selected : Nat
  after_months : List Nat
deriving DecidableEq

/-- `comparison_months = before_months + [selected_month] + after_months`
(line 133 of `app.py`). -/
def comparison_months (p : Periods) : List Nat :=
  p.before_months ++ [p.selected] ++ p.after_months

/-- The period resolution of `app.py` lines 75–133: the selected-month
slider over `range(1, 13)`, then the four period sliders with their
option ranges `range(1, selected_month)`, `range(before_start,
selected_month)`, `range(selected_month + 1, 13)` and
`range(after_start, 13)`, then the three month lists. -/
def resolve_periods (selected_month b_start b_end a_start a_end : Nat) :
    Except SliderError Periods :=
  match select_slider (pyrange 1 13) selected_month with
  | .error e => .error e
  | .ok m =>
    match select_slider (pyrange 1 m) b_start with
    | .error e => .error e
    | .ok bs =>
      match select_slider (pyrange bs m) b_end with
      | .error e => .error e
      | .ok be =>
        match select_slider (pyrange (m + 1) 13) a_start with
        | .error e => .error e
        | .ok a1 =>
          match select_slider (pyrange a1 13) a_end with
          | .error e => .error e
          | .ok a2 =>
            .ok { before_months := pyrange bs (be + 1)
                  selected := m
                  after_months := pyrange a1 (a2 + 1) }

theorem pyrange_mem {lo hi v : Nat} : v ∈ pyrange lo hi ↔ lo ≤ v ∧ v < hi := by
  unfold pyrange
  rw [List.mem_range'_1]
  omega

theorem pyrange_nodup (lo hi : Nat) : (pyrange lo hi).Nodup :=
  List.nodup_range' lo (hi - lo)

theorem select_slider_eq_ok {o : List Nat} {v w : Nat} :
    select_slider o v = .ok w ↔ v ∈ o ∧ w = v := by
  unfold select_slider
  split_ifs with h1 h2
  · simp [h1]
  · simp [h2, eq_comm]
  · simp [h2]

/-- Full characterisation of a successful period resolution: exactly the
slider-domain constraints of `app.py`, and the resulting month lists. -/
theorem resolve_periods_ok_iff {m bs be a1 a2 : Nat} {p : Periods} :
    resolve_periods m bs be a1 a2 = .ok p ↔
      (1 ≤ m ∧ m < 13 ∧ 1 ≤ bs ∧ bs < m ∧ bs ≤ be ∧ be < m ∧
       m + 1 ≤ a1 ∧ a1 < 13 ∧ a1 ≤ a2 ∧ a2 < 13 ∧
       p = ⟨pyrange bs (be + 1), m, pyrange a1 (a2 + 1)⟩) := by
  constructor
  · intro h
    rw [resolve_periods] at h
    split at h
    · cases h
    next m' heq1 =>
      split at h
      · cases h
      next bs' heq2 =>
        split at h
        · cases h
        next be' heq3 =>
          split at h
          · cases h
          next a1' heq4 =>
            split at h
            · cases h
            next a2' heq5 =>
              cases h
              obtain ⟨hm, rfl⟩ := select_slider_eq_ok.mp heq1
              obtain ⟨hbs, rfl⟩ := select_slider_eq_ok.mp heq2
              obtain ⟨hbe, rfl⟩ := select_slider_eq_ok.mp heq3
              obtain ⟨ha1, rfl⟩ := select_slider_eq_ok.mp heq4
              obtain ⟨ha2, rfl⟩ := select_slider_eq_ok.mp heq5
              rw [pyrange_mem] at hm hbs hbe ha1 ha2
              exact ⟨hm.1, hm.2, hbs.1, hbs.2, hbe.1, hbe.2,
                ha1.1, ha1.2, ha2.1, ha2.2, rfl⟩
  · rintro ⟨h1, h2, h3, h4, h5, h6, h7, h8, h9, h10, rfl⟩
    have e1 : select_slider (pyrange 1 13) m = .ok m :=
      select_slider_eq_ok.mpr ⟨pyrange_mem.mpr ⟨h1, h2⟩, rfl⟩
    have e2 : select_slider (pyrange 1 m) bs = .ok bs :=
      select_slider_eq_ok.mpr ⟨pyrange_mem.mpr ⟨h3, h4⟩, rfl⟩
    have e3 : select_slider (pyrange bs m) be = .ok be :=
      select_slider_eq_ok.mpr ⟨pyrange_mem.mpr ⟨h5, h6⟩, rfl⟩
    have e4 : select_slider (pyrange (m + 1) 13) a1 = .ok a1 :=
      select_slider_eq_ok.mpr ⟨pyrange_mem.mpr ⟨h7, h8⟩, rfl⟩
    have e5 : select_slider (pyrange a1 13) a2 = .ok a2 :=
      select_slider_eq_ok.mpr ⟨pyrange_mem.mpr ⟨h9, h10⟩, rfl⟩
    simp only [resolve_periods, e1, e2, e3, e4, e5]

/-- C1: for `selectedMonth = 1` the before-period sliders receive
`range(1, 1) = []` as options and Streamlit rejects the empty options list
instead of accepting an empty before range; symmetrically for
`selectedMonth = 12` the after-period sliders receive `range(13, 13) = []`.
Evaluated here at the source's own default slider values: the resolution
errors rather than completing with an empty range. -/
theorem resolve_periods_boundary_crash :
    resolve_periods 1 1 0 2 4 = .error .emptyOptions ∧
    resolve_periods 12 9 11 13 12 = .error .emptyOptions := by
  constructor <;> rfl

/-- C2: every out-of-domain boundary input — `beforeStart > beforeEnd`, or
`afterEnd > 12`, or `beforeEnd ≥ selectedMonth` — makes the period
resolution fail (the offending slider value falls outside its options, or
an options list is empty); the input is never clamped or repaired. -/
theorem resolve_periods_rejects (m bs be a1 a2 : Nat)
    (h : bs > be ∨ a2 > 12 ∨ be ≥ m) :
    ∃ e, resolve_periods m bs be a1 a2 = .error e := by
  rcases hr : resolve_periods m bs be a1 a2 with e | p
  · exact ⟨e, rfl⟩
  · obtain ⟨_, _, _, _, h5, h6, _, _, h9, h10, _⟩ := resolve_periods_ok_iff.mp hr
    omega

theorem resolve_periods_rejects_witness :
    ∃ e, resolve_periods 6 5 3 7 9 = .error e :=
  resolve_periods_rejects 6 5 3 7 9 (Or.inl (by decide))

/-- C3: whenever the resolution succeeds, every month of the before range is
strictly below the selected month, which is strictly below every month of
the after range, and `comparison_months` (before ++ selected ++ after)
contains no duplicate month. -/
theorem period_ordering (m bs be a1 a2 : Nat) (p : Periods)
    (h : resolve_periods m bs be a1 a2 = .ok p) :
    (∀ x ∈ p.before_months, x < p.selected) ∧
    (∀ y ∈ p.after_months, p.selected < y) ∧
    (comparison_months p).Nodup := by
  obtain ⟨h1, h2, h3, h4, h5, h6, h7, h8, h9, h10, rfl⟩ := resolve_periods_ok_iff.mp h
  refine ⟨?_, ?_, ?_⟩
  · intro x hx
    have := pyrange_mem.mp hx
    simpa using by omega
  · intro y hy
    have := pyrange_mem.mp hy
    simpa using by omega
  · unfold comparison_months
    rw [List.append_assoc, List.nodup_append]
    refine ⟨pyrange_nodup _ _, ?_, ?_⟩
    · rw [List.nodup_append]
      refine ⟨List.nodup_singleton m, pyrange_nodup _ _, ?_⟩
      intro x hx hx'
      simp only [List.mem_singleton] at hx
      have := pyrange_mem.mp hx'
      omega
    · intro x hx hx'
      have hxb := pyrange_mem.mp hx
      rcases List.mem_append.mp hx' with hxs | hxa
      · simp only [List.mem_singleton] at hxs
        omega
      · have := pyrange_mem.mp hxa
        omega

theorem period_ordering_witness :
    (∀ x ∈ (Periods.mk [3, 4, 5] 6 [7, 8, 9]).before_months,
        x < (Periods.mk [3, 4, 5] 6 [7, 8, 9]).selected) ∧
    (∀ y ∈ (Periods.mk [3, 4, 5] 6 [7, 8, 9]).after_months,
        (Periods.mk [3, 4, 5] 6 [7, 8, 9]).selected < y) ∧
    (comparison_months (Periods.mk [3, 4, 5] 6 [7, 8, 9])).Nodup :=
  period_ordering 6 3 5 7 9 (Periods.mk [3, 4, 5] 6 [7, 8, 9]) (by rfl)

/-- A row of `data/stations.csv`: station id, display name, zone type,
city, and the regulatory day/night limits (dB, modelled as rationals). -/
structure StationRow where
  station : Nat
  name : String
  type : String
  city : String
  dayLimit : ℚ
  nightLimit : ℚ
deriving DecidableEq

/-- A row of `data/station_month.csv`: station id, month, day/night noise
levels. -/
structure ReadingRow where
  station : Nat
  month : Nat
  day : ℚ
  night : ℚ
deriving DecidableEq

/-- A row of the joined table built by `load_data`: a reading enriched with
its station's attributes, plus the `MonthName` column added on line 38. -/
structure Record where
  station : Nat
  month : Nat
  day : ℚ
  night : ℚ
  name : String
  type : String
  city : String
  dayLimit : ℚ
  nightLimit : ℚ
  monthName : String
deriving DecidableEq

/-- `calendar.month_name[m]` for `m` in 0..12 (index 0 is the empty
string, as in Python's `calendar` module). -/
def month_name (m : Nat) : String :=
  ["", "January", "February", "March", "April", "May", "June", "July",
   "August", "September", "October", "November", "December"].getD m ""

/-- One output row of `pd.merge(monthly_data, stations_df, on='Station')`
for a matching reading/station pair, with the `MonthName` column that
`load_data` adds right after the merge folded in. -/
def combine (r : ReadingRow) (s : StationRow) : Record :=
  { station := r.station
    month := r.month
    day := r.day
    night := r.night
    name := s.name
    type := s.type
    city := s.city
    dayLimit := s.dayLimit
    nightLimit := s.nightLimit
    monthName := month_name r.month }

/-- `load_data` (lines 28–40): inner-join the monthly readings with the
station metadata on `Station` (pandas `merge` with the default
`how='inner'` emits, for every reading and every station with the same
key, one combined row, in left-key order), then add `MonthName`. -/
def load_data (monthly : List ReadingRow) (stations : List StationRow) :
    List Record :=
  monthly.flatMap fun r =>
    (stations.filter fun s => s.station = r.station).map (combine r)

/-- C6: the loader's output is exactly the inner join on `Station` — a
record is in the output iff it combines a reading with a station carrying
the same key, and a station id occurs in the output iff it occurs in both
input tables (rows without a match on either side are dropped). -/
theorem load_data_inner_join (monthly : List ReadingRow) (stations : List StationRow) :
    (∀ rec : Record, rec ∈ load_data monthly stations ↔
       ∃ r ∈ monthly, ∃ s ∈ stations, r.station = s.station ∧ rec = combine r s) ∧
    (∀ sid : Nat, (∃ rec ∈ load_data monthly stations, rec.station = sid) ↔
       ((∃ r ∈ monthly, r.station = sid) ∧ (∃ s ∈ stations, s.station = sid))) := by
  have hmem : ∀ rec : Record, rec ∈ load_data monthly stations ↔
      ∃ r ∈ monthly, ∃ s ∈ stations, r.station = s.station ∧ rec = combine r s := by
    intro rec
    simp only [load_data, List.mem_flatMap, List.mem_map, List.mem_filter,
      decide_eq_true_eq]
    constructor
    · rintro ⟨r, hr, s, ⟨hs, hmatch⟩, rfl⟩
      exact ⟨r, hr, s, hs, hmatch.symm, rfl⟩
    · rintro ⟨r, hr, s, hs, hmatch, rfl⟩
      exact ⟨r, hr, s, ⟨hs, hmatch.symm⟩, rfl⟩
  refine ⟨hmem, ?_⟩
  intro sid
  constructor
  · rintro ⟨rec, hrec, rfl⟩
    obtain ⟨r, hr, s, hs, hmatch, rfl⟩ := (hmem rec).mp hrec
    exact ⟨⟨r, hr, rfl⟩, ⟨s, hs, hmatch.symm⟩⟩
  · rintro ⟨⟨r, hr, hrs⟩, ⟨s, hs, hss⟩⟩
    refine ⟨combine r s, (hmem (combine r s)).mpr ⟨r, hr, s, hs, ?_, rfl⟩, hrs⟩
    rw [hrs, hss]

/-- The violation classification of lines 449–452: per record,
`Day Violation = Day > DayLimit`, `Night Violation = Night > NightLimit`,
`Total Violations = int(Day Violation) + int(Night Violation)`. -/
structure VRecord extends Record where
  dayViolation : Bool
  nightViolation : Bool
  totalViolations : Nat
deriving DecidableEq

/-- One row of the `violation_data` frame: the record plus its two
violation flags and their integer sum. -/
def violation_row (r : Record) : VRecord :=
  { toRecord := r
    dayViolation := decide (r.dayLimit < r.day)
    nightViolation := decide (r.nightLimit < r.night)
    totalViolations :=
      (decide (r.dayLimit < r.day)).toNat + (decide (r.nightLimit < r.night)).toNat }

/-- `violation_data` (lines 449–452) over a filtered record set. -/
def violation_data (rs : List Record) : List VRecord := rs.map violation_row

/-- C7: `DayViolation` holds iff `Day` strictly exceeds `DayLimit` (a
reading equal to its limit is compliant), `NightViolation` iff `Night`
strictly exceeds `NightLimit`, and `TotalViolations` is the sum of the two
booleans, hence at most 2. -/
theorem violation_row_correct (r : Record) :
    ((violation_row r).dayViolation = true ↔ r.dayLimit < r.day) ∧
    ((violation_row r).nightViolation = true ↔ r.nightLimit < r.night) ∧
    (violation_row r).totalViolations
      = (violation_row r).dayViolation.toNat + (violation_row r).nightViolation.toNat ∧
    (violation_row r).totalViolations ≤ 2 := by
  refine ⟨decide_eq_true_iff, decide_eq_true_iff, rfl, ?_⟩
  unfold violation_row
  cases decide (r.dayLimit < r.day) <;> cases decide (r.nightLimit < r.night) <;> simp

/-- The value of a floating-point computation in the source: a finite
number (kept exact as a rational) or NaN.  NaN arises exactly where the
source divides by zero: the mean of an empty series and the violation rate
over zero records — in both, the numerator is zero whenever the
denominator is, so `0/0 = NaN` is the only non-finite case reachable. -/
inductive FloatVal
  | nan
  | fin (q : ℚ)
deriving DecidableEq

/-- Floating-point division as the source performs it: `0/0` is NaN (a
nonzero numerator over zero never occurs in this program, see `FloatVal`). -/
def fdiv (a b : ℚ) : FloatVal := if b = 0 then .nan else .fin (a / b)

/-- Multiplication of a float result by a constant; NaN propagates. -/
def fmul (x : FloatVal) (c : ℚ) : FloatVal :=
  match x with
  | .nan => .nan
  | .fin q => .fin (q * c)

/-- Subtraction of two float results; NaN propagates. -/
def fsub (x y : FloatVal) : FloatVal :=
  match x, y with
  | .fin a, .fin b => .fin (a - b)
  | _, _ => .nan

/-- `city_data = df[df['City'] == selected_city]` (line 136). -/
def city_data (df : List Record) (city : String) : List Record :=
  df.filter fun r => r.city = city

/-- `month_data = city_data[(Month == selected_month) & (Type.isin(selected_types))]`
(lines 137–140). -/
def month_data (df : List Record) (city : String) (m : Nat) (types : List String) :
    List Record :=
  (city_data df city).filter fun r => r.month = m ∧ r.type ∈ types

/-- `city_data[city_data['Month'] == selected_month - 1]` (line 152): the
prior-month rows of the city, with NO zone-type filter applied. -/
def prev_month_all_types (df : List Record) (city : String) (m : Nat) : List Record :=
  (city_data df city).filter fun r => r.month = m - 1

/-- `series.mean()` for the column selected by `f`: sum over length, NaN
when the filtered set is empty. -/
def metric_mean (rs : List Record) (f : Record → ℚ) : FloatVal :=
  fdiv ((rs.map f).sum) ((rs.map f).length : ℚ)

/-- The month-over-month delta of lines 149–165: shown only when
`selected_month > 1`; current mean over the (city, month, selected types)
filter, prior mean over the city's previous-month rows with all types. -/
def month_change (df : List Record) (city : String) (m : Nat) (types : List String)
    (f : Record → ℚ) : Option FloatVal :=
  if 1 < m then
    some (fsub (metric_mean (month_data df city m types) f)
               (metric_mean (prev_month_all_types df city m) f))
  else none

/-- Modelled from the spec for comparison with `month_change`:
"mean(metric, month M) − mean(metric, month M−1) for the same city/type
filter, defined only when M > 1 and the prior month has data for that
filter; otherwise the delta is reported as absent, not zero."  The same
zone-type filter is applied to both months, and the result is absent when
`M ≤ 1` or either month has no data for the filter. -/
def month_change_spec (df : List Record) (city : String) (m : Nat) (types : List String)
    (f : Record → ℚ) : Option ℚ :=
  if 1 < m ∧ month_data df city (m - 1) types ≠ [] ∧ month_data df city m types ≠ [] then
    some (((month_data df city m types).map f).sum / ((month_data df city m types).length : ℚ)
        - ((month_data df city (m - 1) types).map f).sum
            / ((month_data df city (m - 1) types).length : ℚ))
  else none

/-- `(month_data['Day'] > month_data['DayLimit']).sum()` (line 169). -/
def count_day_violations (rs : List Record) : Nat :=
  rs.countP fun r => decide (r.dayLimit < r.day)

/-- `(month_data['Night'] > month_data['NightLimit']).sum()` (line 170). -/
def count_night_violations (rs : List Record) : Nat :=
  rs.countP fun r => decide (r.nightLimit < r.night)

/-- `violation_perc` (lines 168–171, identically `violation_percentage` on
line 466): `(day violations + night violations) / (len * 2) * 100`,
computed unconditionally. -/
def violation_perc (rs : List Record) : FloatVal :=
  fmul (fdiv ((count_day_violations rs + count_night_violations rs : Nat) : ℚ)
             ((rs.length * 2 : Nat) : ℚ)) 100

/-- C4: over `N > 0` records the rate is
`(dayViolations + nightViolations) / (2N) × 100`; but over `N = 0` records
the source still performs the division — `0 / 0` — and obtains NaN (which
the page renders as `nan%`) instead of reporting the rate as absent. -/
theorem violation_perc_div_by_zero :
    violation_perc [] = FloatVal.nan ∧
    ∀ rs : List Record, rs ≠ [] →
      violation_perc rs =
        .fin (((count_day_violations rs + count_night_violations rs : Nat) : ℚ)
          / ((rs.length * 2 : Nat) : ℚ) * 100) := by
  constructor
  · rfl
  · intro rs hrs
    have hlen : ((rs.length * 2 : Nat) : ℚ) ≠ 0 := by
      have h0 : rs.length ≠ 0 := fun h => hrs (List.length_eq_zero.mp h)
      exact_mod_cast Nat.mul_ne_zero h0 (by decide)
    simp [violation_perc, fdiv, fmul, hrs, hlen]

/-- A compliant-by-day, violating-by-night sample record. -/
def nightOnlyA : Record :=
  { station := 10, month := 6, day := 50, night := 60, name := "NA", type := "R",
    city := "X", dayLimit := 55, nightLimit := 45, monthName := "June" }

/-- A second record violating only at night. -/
def nightOnlyB : Record :=
  { station := 11, month := 6, day := 52, night := 61, name := "NB", type := "R",
    city := "X", dayLimit := 55, nightLimit := 45, monthName := "June" }

theorem violation_perc_div_by_zero_witness :
    violation_perc [nightOnlyA] =
      .fin (((count_day_violations [nightOnlyA] + count_night_violations [nightOnlyA] : Nat) : ℚ)
        / (([nightOnlyA] : List Record).length * 2 : Nat) * 100) :=
  violation_perc_div_by_zero.2 [nightOnlyA] (by simp)

/-- Sample joined table: one February "R" reading and two January readings
of different zone types, all in city "X" and all compliant. -/
def df5 : List Record :=
  [{ station := 1, month := 2, day := 10, night := 7, name := "A", type := "R",
     city := "X", dayLimit := 55, nightLimit := 45, monthName := "February" },
   { station := 2, month := 1, day := 4, night := 3, name := "B", type := "R",
     city := "X", dayLimit := 55, nightLimit := 45, monthName := "January" },
   { station := 3, month := 1, day := 8, night := 5, name := "C", type := "C",
     city := "X", dayLimit := 55, nightLimit := 45, monthName := "January" }]

/-- Sample joined table with a February reading but no January data. -/
def df5b : List Record :=
  [{ station := 1, month := 2, day := 10, night := 7, name := "A", type := "R",
     city := "X", dayLimit := 55, nightLimit := 45, monthName := "February" }]

/-- C5 counterexample: with zone filter `["R"]` and month 2 over `df5`, the
source's delta is `10 − (4+8)/2 = 4` — the prior-month mean includes the
type-"C" row because line 152 applies no type filter — while the claimed
delta over the same city/type filter for both months is `10 − 4 = 6`.
Moreover over `df5b`, whose prior month has no data, the source yields
NaN (`some .nan`), not an absent delta. -/
theorem month_change_claim_false :
    month_change df5 "X" 2 ["R"] (fun r => r.day) = some (.fin 4) ∧
    month_change_spec df5 "X" 2 ["R"] (fun r => r.day) = some 6 ∧
    (4 : ℚ) ≠ 6 ∧
    month_change df5b "X" 2 ["R"] (fun r => r.day) = some FloatVal.nan ∧
    month_change_spec df5b "X" 2 ["R"] (fun r => r.day) = none := by
  have e1 : (month_data df5 "X" 2 ["R"]).map (fun r => r.day) = [10] := rfl
  have e2 : (prev_month_all_types df5 "X" 2).map (fun r => r.day) = [4, 8] := rfl
  have e3 : (month_data df5 "X" 1 ["R"]).map (fun r => r.day) = [4] := rfl
  have e4 : (month_data df5b "X" 2 ["R"]).map (fun r => r.day) = [10] := rfl
  have e5 : prev_month_all_types df5b "X" 2 = [] := rfl
  have l1 : (month_data df5 "X" 2 ["R"]).length = 1 := rfl
  have l2 : (prev_month_all_types df5 "X" 2).length = 2 := rfl
  have l3 : (month_data df5 "X" 1 ["R"]).length = 1 := rfl
  have l4 : (month_data df5b "X" 2 ["R"]).length = 1 := rfl
  refine ⟨?_, ?_, by norm_num, ?_, ?_⟩
  · rw [month_change, if_pos (by norm_num)]
    rw [metric_mean, metric_mean, e1, e2]
    have : (([10] : List ℚ).length : ℚ) = 1 := by norm_num
    rw [fdiv, fdiv, if_neg (by norm_num), if_neg (by norm_num)]
    rw [fsub]
    norm_num
  · rw [month_change_spec,
      if_pos ⟨by norm_num, by simp [show month_data df5 "X" (2 - 1) ["R"] =
        month_data df5 "X" 1 ["R"] from rfl]; exact fun h => by simp [h] at e3,
        fun h => by simp [h] at e1⟩]
    norm_num [show month_data df5 "X" (2 - 1) ["R"] = month_data df5 "X" 1 ["R"] from rfl,
      e1, e3, l1, l3]
  · rw [month_change, if_pos (by norm_num)]
    rw [metric_mean, metric_mean, e4, e5]
    rw [show (([] : List Record).map (fun r => r.day)) = ([] : List ℚ) from rfl]
    rw [fdiv, fdiv, if_neg (by norm_num), if_pos (by norm_num)]
    rfl
  · rw [month_change_spec, if_neg]
    simp [show month_data df5b "X" (2 - 1) ["R"] = [] from rfl]

/-- C5 (amended): for `M > 1` and a nonempty current filter, the delta is
`mean(metric, month M, selected types) − mean(metric, month M−1, ALL
types)` — the prior-month mean ignores the zone-type filter; when the
prior month has no data for the city the delta is NaN, not absent; only
for `M = 1` is the delta absent. -/
theorem month_change_amended (df : List Record) (city : String) (types : List String)
    (f : Record → ℚ) (m : Nat) (hm : 1 < m)
    (hcur : month_data df city m types ≠ []) :
    (prev_month_all_types df city m ≠ [] →
      month_change df city m types f =
        some (.fin (((month_data df city m types).map f).sum
            / ((month_data df city m types).length : ℚ)
          - ((prev_month_all_types df city m).map f).sum
            / ((prev_month_all_types df city m).length : ℚ)))) ∧
    (prev_month_all_types df city m = [] →
      month_change df city m types f = some FloatVal.nan) ∧
    month_change df city 1 types f = none := by
  have hc : ((month_data df city m types).length : ℚ) ≠ 0 := by
    have h0 : (month_data df city m types).length ≠ 0 :=
      fun h => hcur (List.length_eq_zero.mp h)
    exact_mod_cast h0
  refine ⟨?_, ?_, by simp [month_change]⟩
  · intro hprev
    have hp : ((prev_month_all_types df city m).length : ℚ) ≠ 0 := by
      have h0 : (prev_month_all_types df city m).length ≠ 0 :=
        fun h => hprev (List.length_eq_zero.mp h)
      exact_mod_cast h0
    simp [month_change, hm, metric_mean, fdiv, fsub, hc, hp]
  · intro hprev
    simp [month_change, hm, metric_mean, fdiv, fsub, hc, hprev]

theorem month_change_amended_witness :
    month_change df5 "X" 2 ["R"] (fun r => r.day) =
      some (.fin (((month_data df5 "X" 2 ["R"]).map (fun r => r.day)).sum
          / ((month_data df5 "X" 2 ["R"]).length : ℚ)
        - ((prev_month_all_types df5 "X" 2).map (fun r => r.day)).sum
          / ((prev_month_all_types df5 "X" 2).length : ℚ))) :=
  (month_change_amended df5 "X" ["R"] (fun r => r.day) 2 (by decide) (by decide)).1
    (by decide)

/-- The "Violations" metric of the period summaries (lines 251–252,
266–267, 281–282): the number of records where the day OR the night
reading breaks its limit. -/
def violations_metric (rs : List Record) : Nat :=
  rs.countP fun r => decide (r.dayLimit < r.day) || decide (r.nightLimit < r.night)

/-- `day_violations = violation_data['Day Violation'].sum()` (line 458). -/
def day_violations (rs : List Record) : Nat :=
  (violation_data rs).countP fun v => v.dayViolation

/-- `night_violations = violation_data['Night Violation'].sum()` (line 462). -/
def night_violations (rs : List Record) : Nat :=
  (violation_data rs).countP fun v => v.nightViolation

/-- Helper: over records that violate only at night, the record-count
metric equals the record count while the day-event count is zero. -/
theorem night_only_counts : ∀ rs : List Record,
    (∀ r ∈ rs, ¬ r.dayLimit < r.day ∧ r.nightLimit < r.night) →
    violations_metric rs = rs.length ∧ day_violations rs = 0 ∧
    night_violations rs = rs.length := by
  intro rs
  induction rs with
  | nil => exact fun _ => ⟨rfl, rfl, rfl⟩
  | cons r rs ih =>
    intro h
    obtain ⟨hd, hn⟩ := h r (List.mem_cons_self r rs)
    obtain ⟨ih1, ih2, ih3⟩ := ih fun x hx => h x (List.mem_cons_of_mem r hx)
    have hdf : decide (r.dayLimit < r.day) = false := decide_eq_false hd
    have hnt : decide (r.nightLimit < r.night) = true := decide_eq_true hn
    simp only [violations_metric, day_violations, night_violations, violation_data,
      List.map_cons, List.countP_cons, List.length_cons, violation_row, hdf, hnt]
      at ih1 ih2 ih3 ⊢
    simp only [Bool.false_or, Bool.false_eq_true, if_false, if_true] at ih1 ih2 ih3 ⊢
    refine ⟨?_, ?_, ?_⟩ <;> simp_all

/-- C8: the period-summary "Violations" metric counts records with a day
OR night violation (a record violating both counts once — it equals the
count over `violation_data` of rows whose two flags disjoin), and it is a
separate statistic from the per-event day/night counts: over records each
violating only at night, the record count equals the number of records
while the day-event count is 0 and the night-event count equals the
number of records. -/
theorem violations_metric_counts_records (rs : List Record)
    (h : ∀ r ∈ rs, ¬ r.dayLimit < r.day ∧ r.nightLimit < r.night) :
    violations_metric rs
      = (violation_data rs).countP (fun v => v.dayViolation || v.nightViolation) ∧
    violations_metric rs = rs.length ∧
    day_violations rs = 0 ∧
    night_violations rs = rs.length := by
  refine ⟨?_, night_only_counts rs h⟩
  simp only [violation_data, List.countP_map]
  rfl

theorem violations_metric_counts_records_witness :
    violations_metric [nightOnlyA, nightOnlyB] = ([nightOnlyA, nightOnlyB] : List Record).length ∧
    day_violations [nightOnlyA, nightOnlyB] = 0 ∧
    night_violations [nightOnlyA, nightOnlyB] = ([nightOnlyA, nightOnlyB] : List Record).length :=
  (violations_metric_counts_records [nightOnlyA, nightOnlyB] (by decide)).2

/-- Ascending order on the `Total Violations` key — the order whose
argsort pandas computes before reversing it for `ascending=False`. -/
def by_total (a b : VRecord) : Prop := a.totalViolations ≤ b.totalViolations

instance : DecidableRel by_total := fun a b =>
  inferInstanceAs (Decidable (a.totalViolations ≤ b.totalViolations))

instance : IsTotal VRecord by_total :=
  ⟨fun a b => Nat.le_total a.totalViolations b.totalViolations⟩

instance : IsTrans VRecord by_total :=
  ⟨fun _ _ _ h1 h2 => Nat.le_trans h1 h2⟩

/-- `sort_values('Total Violations', ascending=False)` (line 476):
pandas (`pandas.core.sorting.nargsort`) computes an ascending argsort of
the key column and reverses the resulting indexer for a descending sort.
On inputs of this size numpy's default `quicksort` runs its insertion-sort
branch, which keeps equal keys in input order, so the output is the
reverse of a stable ascending sort. -/
def sort_values_desc (l : List VRecord) : List VRecord :=
  (List.insertionSort by_total l).reverse

/-- `violation_table` (lines 473–476): the `violation_data` rows sorted
descending by `Total Violations` (the column projection and display
rounding on lines 473–482 do not reorder rows and are omitted). -/
def violation_table (rs : List Record) : List VRecord :=
  sort_values_desc (violation_data rs)

/-- A compliant record, distinct from `tieB` only in name and levels. -/
def tieA : Record :=
  { station := 20, month := 6, day := 40, night := 30, name := "T1", type := "R",
    city := "X", dayLimit := 55, nightLimit := 45, monthName := "June" }

/-- A second compliant record with the same `Total Violations` as `tieA`. -/
def tieB : Record :=
  { station := 21, month := 6, day := 41, night := 31, name := "T2", type := "R",
    city := "X", dayLimit := 55, nightLimit := 45, monthName := "June" }

/-- C9 counterexample: two distinct records with equal `Total Violations`
do NOT retain their relative input order — the descending sort emits them
in reversed input order, because pandas reverses the ascending argsort. -/
theorem violation_table_not_stable :
    (violation_row tieA).totalViolations = (violation_row tieB).totalViolations ∧
    violation_table [tieA, tieB] = [violation_row tieB, violation_row tieA] ∧
    violation_row tieA ≠ violation_row tieB := by
  decide

/-- C9 (amended): the detailed violation report is a permutation of the
violation rows sorted descending by `TotalViolations`, but the sort is not
stable — records with equal `TotalViolations` appear in reversed input
order (pandas reverses a stable ascending argsort for `ascending=False`). -/
theorem violation_table_sorted_desc (rs : List Record) :
    (violation_table rs).Perm (violation_data rs) ∧
    (violation_table rs).Sorted (fun a b => b.totalViolations ≤ a.totalViolations) := by
  constructor
  · exact (List.reverse_perm _).trans (List.perm_insertionSort _ _)
  · exact List.pairwise_reverse.mpr (List.sorted_insertionSort by_total (violation_data rs))

/-- One row of the zone-wise roll-up `zone_violations` (lines 546–550). -/
structure ZoneRow where
  type : String
  day_sum : Nat
  night_sum : Nat
  total_sum : Nat
deriving DecidableEq

/-- `zone_violations = violation_data.groupby('Type').agg(sum)` (lines
546–550): one row per distinct `Type`, with the sum of each violation
column over that group (summing a boolean column counts its `True`
entries; pandas emits groups in sorted-key order, first-appearance order
is used here — group contents are unaffected). -/
def zone_violations (rs : List Record) : List ZoneRow :=
  ((violation_data rs).map fun v => v.type).dedup.map fun t =>
    { type := t
      day_sum := ((violation_data rs).filter fun v => v.type = t).countP
        fun v => v.dayViolation
      night_sum := ((violation_data rs).filter fun v => v.type = t).countP
        fun v => v.nightViolation
      total_sum := (((violation_data rs).filter fun v => v.type = t).map
        fun v => v.totalViolations).sum }

/-- Helper: if every row's total is the sum of its two flags, the group
sum of totals splits into the two flag counts. -/
theorem total_sum_split : ∀ l : List VRecord,
    (∀ v ∈ l, v.totalViolations = v.dayViolation.toNat + v.nightViolation.toNat) →
    (l.map fun v => v.totalViolations).sum
      = (l.countP fun v => v.dayViolation) + (l.countP fun v => v.nightViolation) := by
  intro l
  induction l with
  | nil => exact fun _ => rfl
  | cons a l ih =>
    intro hl
    have ha := hl a (List.mem_cons_self a l)
    have ih' := ih fun v hv => hl v (List.mem_cons_of_mem a hv)
    simp only [List.map_cons, List.sum_cons, List.countP_cons, ih', ha]
    cases a.dayViolation <;> cases a.nightViolation <;> simp <;> omega

/-- Helper: every `violation_data` row's total is the sum of its flags. -/
theorem mem_violation_data_total (rs : List Record) :
    ∀ v ∈ violation_data rs,
      v.totalViolations = v.dayViolation.toNat + v.nightViolation.toNat := by
  intro v hv
  obtain ⟨r, _, rfl⟩ := List.mem_map.mp hv
  rfl

/-- C10: in every row of the zone-wise roll-up, the sum of
`Total Violations` equals the sum of `Day Violation` plus the sum of
`Night Violation` over that zone's records. -/
theorem zone_total_eq_day_add_night (rs : List Record) (z : ZoneRow)
    (hz : z ∈ zone_violations rs) :
    z.total_sum = z.day_sum + z.night_sum := by
  obtain ⟨t, _, rfl⟩ := List.mem_map.mp hz
  exact total_sum_split _ fun v hv =>
    mem_violation_data_total rs v (List.mem_of_mem_filter hv)

theorem zone_total_eq_day_add_night_witness :
    ZoneRow.mk "R" 0 1 1 ∈ zone_violations [nightOnlyA] ∧
    (ZoneRow.mk "R" 0 1 1).total_sum
      = (ZoneRow.mk "R" 0 1 1).day_sum + (ZoneRow.mk "R" 0 1 1).night_sum :=
  ⟨by decide, zone_total_eq_day_add_night [nightOnlyA] (ZoneRow.mk "R" 0 1 1) (by decide)⟩

end NoiseDash
